import Mathlib

/-!
Verification development for the Kepco BIT 802E simulator
(`kepco_simulator.py`, class `KepcoDevice`).

The device model is embedded shallowly: the mutable Python object becomes
an explicit record `DeviceState`; `_dispatch` is split into a pure routing
pass `route` (the chain of string pattern tests, in source order) and an
effect pass `exec` (the branch bodies); the background `_list_runner`
thread becomes a pure function from a configuration snapshot to the finite
trace of `(iteration, step index, clamped dwell)` triples it produces.
Machine floats are modelled as rationals: every claim under study depends
only on exact comparisons, clamping and data flow, never on binary64
rounding; `%.6E` response formatting is represented by an uninterpreted
but concrete stand-in `fmtSci` whose output no claim inspects.
-/

namespace Kepco

/-- Numeric value of a list of decimal digit characters
(accumulator form, as produced by repeated base-10 shifts). -/
def natOfDigits (l : List Char) : ℕ :=
  l.foldl (fun a c => a * 10 + (c.toNat - 48)) 0

/-- ASCII whitespace stripped by Python's `str.strip()`. -/
def isPySpace (c : Char) : Bool :=
  c = ' ' ∨ c = '\t' ∨ c = '\n' ∨ c = '\r' ∨ c = '\x0b' ∨ c = '\x0c'

/-- Python's `str.strip()` (ASCII whitespace; implemented over the
character list so that concrete commands evaluate by reduction). -/
def pyStrip (s : String) : String :=
  String.mk (((s.data.dropWhile isPySpace).reverse.dropWhile isPySpace).reverse)

/-- Python's `str.upper()` on ASCII text (`Char.toUpper` agrees with it on
the ASCII range; commands are ASCII by construction of the server). -/
def pyUpper (s : String) : String :=
  String.mk (s.data.map Char.toUpper)

/-- Python's `str.startswith(pat)`. -/
def pyStartsWith (s pat : String) : Bool :=
  pat.data.isPrefixOf s.data

/-- Python's character-indexed slicing `s[n:]` on strings. -/
def pyDrop (s : String) (n : ℕ) : String :=
  String.mk (s.data.drop n)

/-- Powers of ten over ℚ (direct recursion, used in place of `Monoid.npow`
so that concrete parses evaluate by reduction). -/
def pow10 : ℕ → ℚ
  | 0 => 1
  | n + 1 => 10 * pow10 n

/-- `10 ^ e` for an integer exponent, over ℚ. -/
def zpow10 (e : ℤ) : ℚ :=
  if 0 ≤ e then pow10 e.toNat else (pow10 (-e).toNat)⁻¹

/-- Exponent-suffix acceptance: after `e`/`E` and optional sign there must
be at least one digit and nothing else (third stage of `float(s)`). -/
def pyFloatExpDigits (mant : ℚ) (esgn : ℤ) (l : List Char) : Option ℚ :=
  if l.takeWhile Char.isDigit ≠ [] ∧ l.dropWhile Char.isDigit = [] then
    some (mant * zpow10 (esgn * (natOfDigits (l.takeWhile Char.isDigit) : ℤ)))
  else none

/-- Optional `e`/`E` exponent part of `float(s)` applied to a parsed
mantissa (second stage of `float(s)`). -/
def pyFloatExp (mant : ℚ) : List Char → Option ℚ
  | [] => some mant
  | e :: r =>
    if e = 'e' ∨ e = 'E' then
      match r with
      | '+' :: r2 => pyFloatExpDigits mant 1 r2
      | '-' :: r2 => pyFloatExpDigits mant (-1) r2
      | _ => pyFloatExpDigits mant 1 r
    else none

/-- Mantissa of `float(s)` after the optional sign: digits with an
optional fractional part, at least one digit overall. -/
def pyFloatUnsigned (sgn : ℚ) (l : List Char) : Option ℚ :=
  match l.dropWhile Char.isDigit with
  | '.' :: r2 =>
    if (l.takeWhile Char.isDigit).length + (r2.takeWhile Char.isDigit).length = 0 then none
    else
      pyFloatExp
        (sgn * (natOfDigits (l.takeWhile Char.isDigit ++ r2.takeWhile Char.isDigit) : ℚ) /
          pow10 (r2.takeWhile Char.isDigit).length)
        (r2.dropWhile Char.isDigit)
  | r1 =>
    if (l.takeWhile Char.isDigit).length = 0 then none
    else pyFloatExp (sgn * (natOfDigits (l.takeWhile Char.isDigit) : ℚ)) r1

/-- Models Python's builtin `float(s)` on an already-stripped token, over ℚ.
Accepted grammar: optional sign, then digits with an optional fractional
part (at least one digit overall), then an optional `e`/`E` exponent with
optional sign and at least one digit.  (The builtin additionally accepts
`inf`/`nan` spellings and digit underscores; no claim depends on those.)
Returns `none` exactly when the builtin raises `ValueError` on inputs of
this grammar's alphabet. -/
def pyFloat (s : String) : Option ℚ :=
  match s.data with
  | '+' :: r => pyFloatUnsigned 1 r
  | '-' :: r => pyFloatUnsigned (-1) r
  | l => pyFloatUnsigned 1 l

/-- Truncation of a rational toward zero: models Python's `int(float)`
conversion applied to an exactly-represented value. -/
def ratTrunc (q : ℚ) : ℤ :=
  if q < 0 then -((-q).floor) else q.floor

/-- `_parse_float(cmd, offset)`: `float(cmd[offset:].strip())`, with the
`ValueError` path as `none`. -/
def parseFloatAt (cmd : String) (offset : ℕ) : Option ℚ :=
  pyFloat (pyStrip (pyDrop cmd offset))

/-- `_parse_int(cmd, offset)`: `int(float(cmd[offset:].strip()))`. -/
def parseIntAt (cmd : String) (offset : ℕ) : Option ℤ :=
  (parseFloatAt cmd offset).map ratTrunc

/-- Splitting a character list on commas (`str.split(",")` semantics:
the empty string yields one empty segment, adjacent commas yield empty
segments). -/
def splitCommaChars : List Char → List (List Char)
  | [] => [[]]
  | ',' :: rest => [] :: splitCommaChars rest
  | c :: rest =>
    match splitCommaChars rest with
    | [] => [[c]]
    | t :: ts => (c :: t) :: ts

/-- Python's `payload.split(",")` — equivalently the segments enumerated
by the `str.find`-based comma walk in `_parse_float_list`. -/
def pySplitComma (s : String) : List String :=
  (splitCommaChars s.data).map String.mk

/-- Python's substring test `pat in s`. -/
def strContainsSub (s pat : String) : Bool :=
  s.data.tails.any (fun t => pat.data.isPrefixOf t)

/-- Python list indexing `l[i]` (negative indices count from the end;
`none` models `IndexError`). -/
def pyIdx {α : Type} (l : List α) (i : ℤ) : Option α :=
  if 0 ≤ i then l.get? i.toNat
  else if -i ≤ (l.length : ℤ) then l.get? ((l.length : ℤ) + i).toNat
  else none

/-- Python slicing `l[a:b]` with index clamping. -/
def pySlice {α : Type} (l : List α) (a b : ℤ) : List α :=
  let n : ℤ := l.length
  let lo := (if a < 0 then max (n + a) 0 else min a n).toNat
  let hi := (if b < 0 then max (n + b) 0 else min b n).toNat
  (l.take hi).drop lo

/-- Python slicing `l[k:]`. -/
def pyDropFrom {α : Type} (l : List α) (k : ℤ) : List α :=
  if k < 0 then l.drop ((l.length : ℤ) + k).toNat else l.drop k.toNat

/-- The token loop of `_parse_float_list(cmd, offset, max_items)`, run over
the comma-separated segments of the payload (the source walks the commas
with `str.find`, which enumerates exactly these segments in order).
Stripped-empty segments are skipped without counting; parsing stops once
`maxItems` values are collected; a `ValueError` from `float` on any
examined token aborts the whole call (`none`). -/
def collectFloats (maxItems : ℕ) : List String → Option (List ℚ)
  | [] => some []
  | s :: rest =>
    if maxItems = 0 then some []
    else if pyStrip s = "" then collectFloats maxItems rest
    else
      match pyFloat (pyStrip s) with
      | none => none
      | some v => (collectFloats (maxItems - 1) rest).map (fun l => v :: l)

/-- `_parse_float_list(cmd, offset, max_items)` as called from `_dispatch`
(`max_items` is always supplied there); the `except ValueError: return []`
clause is the `none => []` arm. -/
def parseFloatList (cmd : String) (offset : ℕ) (maxItems : ℕ) : List ℚ :=
  match collectFloats maxItems (pySplitComma (pyDrop cmd offset)) with
  | some l => l
  | none => []

/-- The token loop of `_parse_int_list`, analogous to `collectFloats`
with `int(float(token))`. -/
def collectInts (maxItems : ℕ) : List String → Option (List ℤ)
  | [] => some []
  | s :: rest =>
    if maxItems = 0 then some []
    else if pyStrip s = "" then collectInts maxItems rest
    else
      match pyFloat (pyStrip s) with
      | none => none
      | some v => (collectInts (maxItems - 1) rest).map (fun l => ratTrunc v :: l)

/-- `_parse_int_list(cmd, offset, max_items)` as called from `_dispatch`. -/
def parseIntList (cmd : String) (offset : ℕ) (maxItems : ℕ) : List ℤ :=
  match collectInts maxItems (pySplitComma (pyDrop cmd offset)) with
  | some l => l
  | none => []

/-- Stand-in for Python's `f"{v:.6E}"` float formatting (binary64 digit
selection is not representable over ℚ; no claim inspects this output). -/
def fmtSci (v : ℚ) : String := toString v

/-- `f'{code},"{msg}"'`, the error-response format. -/
def fmtErr (code : ℤ) (msg : String) : String :=
  toString code ++ ",\"" ++ msg ++ "\""

/-- `MAX_LIST_POINTS`. -/
def maxListPoints : ℕ := 1002
/-- `MAX_SEQ_POINTS`. -/
def maxSeqPoints : ℕ := 512
/-- `LIST_DWELL_MIN` (500 µs). -/
def dwellMin : ℚ := 5 / 10000
/-- `LIST_DWELL_MAX` (10 s). -/
def dwellMax : ℚ := 10

/-- All mutable fields of `KepcoDevice` (the fields assigned in `reset`,
plus the `threading.Event` cancellation flag `_list_stop_event`, which is
created in `__init__` and *not* reset by `reset`). -/
structure DeviceState where
  outputOn : Bool
  funcMode : String
  voltSetpoint : ℚ
  currSetpoint : ℚ
  voltSaved : ℚ
  currSaved : ℚ
  voltRangeAuto : Bool
  currRangeAuto : Bool
  voltRange : ℤ
  currRange : ℤ
  voltMode : String
  currMode : String
  listVolt : List ℚ
  listCurr : List ℚ
  listDwel : List ℚ
  listCount : ℤ
  listCountSkip : ℤ
  listDir : String
  listGen : String
  listSeq : List ℤ
  listQueryPtr : ℤ
  listRunning : Bool
  listStepIdx : ℤ
  listIteration : ℕ
  initCont : Bool
  voltTrig : ℚ
  currTrig : ℚ
  esr : ℕ
  stb : ℕ
  operCond : ℤ
  operEnable : ℤ
  operEvent : ℤ
  quesCond : ℤ
  quesEnable : ℤ
  quesEvent : ℤ
  errorQueue : List (ℤ × String)
  cmdCount : ℕ
  queryCount : ℕ
  stopEvent : Bool

/-- Power-on defaults: the field values assigned by `reset`, with the
stop event initially clear (as after `__init__`). -/
def initState : DeviceState where
  outputOn := false
  funcMode := "VOLT"
  voltSetpoint := 0
  currSetpoint := 0
  voltSaved := 0
  currSaved := 0
  voltRangeAuto := true
  currRangeAuto := true
  voltRange := 1
  currRange := 1
  voltMode := "FIX"
  currMode := "FIX"
  listVolt := []
  listCurr := []
  listDwel := []
  listCount := 1
  listCountSkip := 0
  listDir := "UP"
  listGen := "DSEQ"
  listSeq := []
  listQueryPtr := 0
  listRunning := false
  listStepIdx := 0
  listIteration := 0
  initCont := true
  voltTrig := 0
  currTrig := 0
  esr := 0
  stb := 0
  operCond := 0
  operEnable := 0
  operEvent := 0
  quesCond := 0
  quesEnable := 0
  quesEvent := 0
  errorQueue := []
  cmdCount := 0
  queryCount := 0
  stopEvent := false

/-- `KepcoDevice.reset`: every field returns to its power-on default;
the cancellation event is untouched (it is not assigned in `reset`). -/
def resetState (st : DeviceState) : DeviceState :=
  { initState with stopEvent := st.stopEvent }


/-- `_push_error`. -/
def pushErr (st : DeviceState) (code : ℤ) (msg : String) : DeviceState :=
  { st with errorQueue := st.errorQueue ++ [(code, msg)] }

/-- `_pop_error`: FIFO pop, with the `0,"No error"` sentinel on an empty
queue (which is left untouched). -/
def popErr (st : DeviceState) : (ℤ × String) × DeviceState :=
  match st.errorQueue with
  | [] => ((0, "No error"), st)
  | e :: rest => (e, { st with errorQueue := rest })

/-- The `SYST:ERR:ALL?` drain loop: pops until a code-0 entry is returned
(the sentinel on exhaustion, or a literal 0-code entry if one were queued),
yielding the formatted entries and the remaining queue. -/
def drainAll : List (ℤ × String) → List String × List (ℤ × String)
  | [] => ([fmtErr 0 "No error"], [])
  | (c, m) :: rest =>
    if c = 0 then ([fmtErr c m], rest)
    else
      let p := drainAll rest
      (fmtErr c m :: p.1, p.2)

/-- `_stop_list`: clears the running flag, demotes LIST modes to FIX and
sets the cancellation event. -/
def stopList (st : DeviceState) : DeviceState :=
  { st with
    listRunning := false
    voltMode := if st.voltMode = "LIST" then "FIX" else st.voltMode
    currMode := if st.currMode = "LIST" then "FIX" else st.currMode
    stopEvent := true }

/-- `_start_list`: if a run is active, enqueue the settings-conflict error
and change nothing else (no new runner thread); otherwise arm the progress
fields, clear the cancellation event and spawn the runner.  The boolean
reports whether a runner thread was started. -/
def startList (st : DeviceState) : DeviceState × Bool :=
  if st.listRunning then
    (pushErr st (-221) "Settings conflict; list already running", false)
  else
    ({ st with
        listRunning := true
        listStepIdx := 0
        listIteration := 0
        stopEvent := false }, true)

/-- `measure_volt` with the `random.uniform` sample passed in as `noise`;
`none` models the `IndexError` a negative out-of-range step index would
raise. -/
def measureVolt (noise : ℚ) (st : DeviceState) : Option ℚ :=
  if ¬ st.outputOn then some 0
  else if st.listRunning ∧ st.listVolt ≠ [] then
    (pyIdx st.listVolt (min st.listStepIdx ((st.listVolt.length : ℤ) - 1))).map
      (fun base => base + noise)
  else some (st.voltSetpoint + noise)

/-- `measure_curr`, analogous to `measureVolt`. -/
def measureCurr (noise : ℚ) (st : DeviceState) : Option ℚ :=
  if ¬ st.outputOn then some 0
  else if st.listRunning ∧ st.listCurr ≠ [] then
    (pyIdx st.listCurr (min st.listStepIdx ((st.listCurr.length : ℤ) - 1))).map
      (fun base => base + noise)
  else some (st.currSetpoint + noise)

/-- The dwell clamp applied both by the `LIST:DWEL` handler and per step
by `_list_runner`. -/
def clampDwell (v : ℚ) : ℚ :=
  if v < dwellMin then dwellMin else if dwellMax < v then dwellMax else v

/-- One recognised command shape of `_dispatch`, i.e. the outcome of its
chain of pattern tests; parameterised constructors carry the raw command
text the handler re-parses at a fixed offset. -/
inductive Cmd where
  | idnQ | rst | cls | esrQ | stbQ | opcQ | opc | wai
  | systErrQ | systErrAllQ | systVersQ
  | outpOn | outpOff | outpQ
  | funcModeVolt | funcModeCurr | funcModeQ
  | voltSet (cmd : String) | voltQ
  | currSet (cmd : String) | currQ
  | measVoltQ | measCurrQ
  | voltModeFix | voltModeList | voltModeQ
  | currModeFix | currModeList | currModeQ
  | voltRangAutoQ | voltRangAuto (u : String)
  | voltRangSet (cmd : String) | voltRangQ
  | currRangAutoQ | currRangAuto (u : String)
  | currRangSet (cmd : String) | currRangQ
  | listCle
  | listVoltSet (cmd : String) | listVoltQ | listVoltPoinQ
  | listCurrSet (cmd : String) | listCurrQ | listCurrPoinQ
  | listDwelSet (cmd : String) | listDwelQ | listDwelPoinQ
  | listCounSkipSet (cmd : String) | listCounSkipQ
  | listCounSet (cmd : String) | listCounQ
  | listDirUp | listDirDown | listDirQ
  | listGenDseq | listGenSeq | listGenQ
  | listSeqSet (cmd : String) | listSeqQ
  | listQuerSet (cmd : String) | listQuerQ
  | statOperCondQ | statOperEnabQ | statOperEnabSet (cmd : String) | statOperQ
  | statQuesCondQ | statQuesEnabQ | statQuesEnabSet (cmd : String) | statQuesQ
  | initCmd | aborCmd | initContQ | initContSet (u : String) | trg
  | unrecognised (cmd : String)

/-- The routing pass of `_dispatch`: `cmd_upper = cmd.upper().strip()`
followed by the source's pattern tests, in source order (order is
semantically significant for the prefix patterns). -/
def route (cmd : String) : Cmd :=
  let u := pyStrip (pyUpper cmd)
  if u = "*IDN?" then .idnQ
  else if u = "*RST" then .rst
  else if u = "*CLS" then .cls
  else if u = "*ESR?" then .esrQ
  else if u = "*STB?" then .stbQ
  else if u = "*OPC?" then .opcQ
  else if u = "*OPC" then .opc
  else if u = "*WAI" then .wai
  else if u = "SYST:ERR?" ∨ u = "SYST:ERR:NEXT?" ∨ u = "SYSTEM:ERROR?" ∨
      u = "SYSTEM:ERROR:NEXT?" then .systErrQ
  else if u = "SYST:ERR:ALL?" ∨ u = "SYSTEM:ERROR:ALL?" then .systErrAllQ
  else if u = "SYST:VERS?" ∨ u = "SYST:VERSION?" ∨ u = "SYSTEM:VERSION?" then .systVersQ
  else if u = "OUTP ON" ∨ u = "OUTP 1" ∨ u = "OUTPUT ON" ∨ u = "OUTPUT 1" ∨
      u = "OUTP:STAT ON" ∨ u = "OUTP:STAT 1" then .outpOn
  else if u = "OUTP OFF" ∨ u = "OUTP 0" ∨ u = "OUTPUT OFF" ∨ u = "OUTPUT 0" ∨
      u = "OUTP:STAT OFF" ∨ u = "OUTP:STAT 0" then .outpOff
  else if u = "OUTP?" ∨ u = "OUTPUT?" ∨ u = "OUTP:STAT?" then .outpQ
  else if u = "FUNC:MODE VOLT" ∨ u = "FUNCTION:MODE VOLT" then .funcModeVolt
  else if u = "FUNC:MODE CURR" ∨ u = "FUNCTION:MODE CURR" then .funcModeCurr
  else if u = "FUNC:MODE?" ∨ u = "FUNCTION:MODE?" then .funcModeQ
  else if pyStartsWith u "VOLT " && !(strContainsSub u ":") then .voltSet cmd
  else if u = "VOLT?" then .voltQ
  else if pyStartsWith u "CURR " && !(strContainsSub u ":") then .currSet cmd
  else if u = "CURR?" then .currQ
  else if u = "MEAS:VOLT?" ∨ u = "MEAS:SCAL:VOLT?" ∨ u = "MEASURE:VOLTAGE?" ∨
      u = "MEASURE:SCALAR:VOLTAGE?" ∨ u = "MEAS:VOLT:DC?" ∨
      u = "MEAS:SCAL:VOLT:DC?" then .measVoltQ
  else if u = "MEAS:CURR?" ∨ u = "MEAS:SCAL:CURR?" ∨ u = "MEASURE:CURRENT?" ∨
      u = "MEASURE:SCALAR:CURRENT?" ∨ u = "MEAS:CURR:DC?" ∨
      u = "MEAS:SCAL:CURR:DC?" then .measCurrQ
  else if u = "VOLT:MODE FIX" ∨ u = "VOLT:MODE FIXED" then .voltModeFix
  else if u = "VOLT:MODE LIST" then .voltModeList
  else if u = "VOLT:MODE?" then .voltModeQ
  else if u = "CURR:MODE FIX" ∨ u = "CURR:MODE FIXED" then .currModeFix
  else if u = "CURR:MODE LIST" then .currModeList
  else if u = "CURR:MODE?" then .currModeQ
  else if u = "VOLT:RANG:AUTO?" then .voltRangAutoQ
  else if pyStartsWith u "VOLT:RANG:AUTO" then .voltRangAuto u
  else if pyStartsWith u "VOLT:RANG " then .voltRangSet cmd
  else if u = "VOLT:RANG?" then .voltRangQ
  else if u = "CURR:RANG:AUTO?" then .currRangAutoQ
  else if pyStartsWith u "CURR:RANG:AUTO" then .currRangAuto u
  else if pyStartsWith u "CURR:RANG " then .currRangSet cmd
  else if u = "CURR:RANG?" then .currRangQ
  else if u = "LIST:CLE" ∨ u = "LIST:CLEAR" then .listCle
  else if pyStartsWith u "LIST:VOLT " && !(strContainsSub u "POIN") then .listVoltSet cmd
  else if u = "LIST:VOLT?" ∨ u = "LIST:VOLTAGE?" then .listVoltQ
  else if u = "LIST:VOLT:POIN?" ∨ u = "LIST:VOLT:POINTS?" ∨
      u = "LIST:VOLTAGE:POINTS?" then .listVoltPoinQ
  else if pyStartsWith u "LIST:CURR " && !(strContainsSub u "POIN") then .listCurrSet cmd
  else if u = "LIST:CURR?" ∨ u = "LIST:CURRENT?" then .listCurrQ
  else if u = "LIST:CURR:POIN?" ∨ u = "LIST:CURR:POINTS?" ∨
      u = "LIST:CURRENT:POINTS?" then .listCurrPoinQ
  else if pyStartsWith u "LIST:DWEL " && !(strContainsSub u "POIN") then .listDwelSet cmd
  else if u = "LIST:DWEL?" ∨ u = "LIST:DWELL?" then .listDwelQ
  else if u = "LIST:DWEL:POIN?" ∨ u = "LIST:DWELL:POINTS?" then .listDwelPoinQ
  else if pyStartsWith u "LIST:COUN:SKIP " then .listCounSkipSet cmd
  else if u = "LIST:COUN:SKIP?" ∨ u = "LIST:COUNT:SKIP?" then .listCounSkipQ
  else if pyStartsWith u "LIST:COUN " then .listCounSet cmd
  else if u = "LIST:COUN?" ∨ u = "LIST:COUNT?" then .listCounQ
  else if u = "LIST:DIR UP" ∨ u = "LIST:DIRECTION UP" then .listDirUp
  else if u = "LIST:DIR DOWN" ∨ u = "LIST:DIRECTION DOWN" then .listDirDown
  else if u = "LIST:DIR?" ∨ u = "LIST:DIRECTION?" then .listDirQ
  else if u = "LIST:GEN DSEQ" ∨ u = "LIST:GEN DSEQUENCE" ∨
      u = "LIST:GENERATION DSEQ" ∨ u = "LIST:GENERATION DSEQUENCE" then .listGenDseq
  else if u = "LIST:GEN SEQ" ∨ u = "LIST:GEN SEQUENCE" ∨
      u = "LIST:GENERATION SEQ" ∨ u = "LIST:GENERATION SEQUENCE" then .listGenSeq
  else if u = "LIST:GEN?" ∨ u = "LIST:GENERATION?" then .listGenQ
  else if pyStartsWith u "LIST:SEQ " && !(strContainsSub u "?") then .listSeqSet cmd
  else if u = "LIST:SEQ?" ∨ u = "LIST:SEQUENCE?" then .listSeqQ
  else if pyStartsWith u "LIST:QUER " && !(strContainsSub u "?") then .listQuerSet cmd
  else if u = "LIST:QUER?" ∨ u = "LIST:QUERY?" then .listQuerQ
  else if u = "STAT:OPER:COND?" ∨ u = "STATUS:OPERATION:CONDITION?" then .statOperCondQ
  else if u = "STAT:OPER:ENAB?" ∨ u = "STATUS:OPERATION:ENABLE?" then .statOperEnabQ
  else if pyStartsWith u "STAT:OPER:ENAB" then .statOperEnabSet cmd
  else if u = "STAT:OPER?" ∨ u = "STATUS:OPERATION?" then .statOperQ
  else if u = "STAT:QUES:COND?" ∨ u = "STATUS:QUESTIONABLE:CONDITION?" then .statQuesCondQ
  else if u = "STAT:QUES:ENAB?" ∨ u = "STATUS:QUESTIONABLE:ENABLE?" then .statQuesEnabQ
  else if pyStartsWith u "STAT:QUES:ENAB" then .statQuesEnabSet cmd
  else if u = "STAT:QUES?" ∨ u = "STATUS:QUESTIONABLE?" then .statQuesQ
  else if u = "INIT" ∨ u = "INIT:IMM" ∨ u = "INITIATE:IMMEDIATE" then .initCmd
  else if u = "ABOR" ∨ u = "ABORT" then .aborCmd
  else if u = "INIT:CONT?" ∨ u = "INITIATE:CONTINUOUS?" then .initContQ
  else if pyStartsWith u "INIT:CONT" then .initContSet u
  else if u = "*TRG" ∨ u = "TRIG" ∨ u = "TRIGGER" then .trg
  else .unrecognised cmd


/-- Result of dispatching one command: the successor state, the optional
query response, whether a LIST runner thread was spawned, and whether the
handler raised (`IndexError` from a negative-index measurement). -/
structure DispatchResult where
  state : DeviceState
  resp : Option String
  started : Bool
  crashed : Bool

/-- A command branch that produces no response. -/
def noResp (st : DeviceState) : DispatchResult := ⟨st, none, false, false⟩

/-- `_q(label, value)`: bump the query counter and answer `value`. -/
def qResp (st : DeviceState) (v : String) : DispatchResult :=
  ⟨{ st with queryCount := st.queryCount + 1 }, some v, false, false⟩

/-- `*IDN?` identity string. -/
def idnString : String := "KEPCO,BOP 50-20M,SIM-001,1.5 (Simulator)"

/-- The effect pass of `_dispatch`: the body of the branch selected by
`route`, acting on the state after the unconditional `cmd_count` bump.
`noise` is the `random.uniform` sample a measurement branch would draw. -/
def exec (noise : ℚ) (st : DeviceState) : Cmd → DispatchResult
  | .idnQ => qResp st idnString
  | .rst => noResp (resetState st)
  | .cls => noResp { st with esr := 0, stb := 0, operEvent := 0, quesEvent := 0, errorQueue := [] }
  | .esrQ => qResp { st with esr := 0 } (toString st.esr)
  | .stbQ => qResp st (toString st.stb)
  | .opcQ => qResp st "1"
  | .opc => noResp { st with esr := st.esr ||| 1 }
  | .wai => noResp st
  | .systErrQ =>
    let p := popErr st
    qResp p.2 (fmtErr p.1.1 p.1.2)
  | .systErrAllQ =>
    let p := drainAll st.errorQueue
    qResp { st with errorQueue := p.2 } (String.intercalate ";" p.1)
  | .systVersQ => qResp st "1995.0"
  | .outpOn =>
    noResp { st with outputOn := true, voltSetpoint := st.voltSaved, currSetpoint := st.currSaved }
  | .outpOff =>
    noResp { st with
      voltSaved := st.voltSetpoint
      currSaved := st.currSetpoint
      outputOn := false
      voltSetpoint := 0
      currSetpoint := 0 }
  | .outpQ => qResp st (if st.outputOn then "1" else "0")
  | .funcModeVolt => noResp { st with funcMode := "VOLT", voltMode := "FIX", currMode := "FIX" }
  | .funcModeCurr => noResp { st with funcMode := "CURR", voltMode := "FIX", currMode := "FIX" }
  | .funcModeQ => qResp st st.funcMode
  | .voltSet cmd =>
    match parseFloatAt cmd 5 with
    | some v =>
      noResp { st with voltSetpoint := v, voltSaved := if st.outputOn then v else st.voltSaved }
    | none => noResp st
  | .voltQ => qResp st (fmtSci st.voltSetpoint)
  | .currSet cmd =>
    match parseFloatAt cmd 5 with
    | some v =>
      noResp { st with currSetpoint := v, currSaved := if st.outputOn then v else st.currSaved }
    | none => noResp st
  | .currQ => qResp st (fmtSci st.currSetpoint)
  | .measVoltQ =>
    match measureVolt noise st with
    | some v => qResp st (fmtSci v)
    | none => ⟨st, none, false, true⟩
  | .measCurrQ =>
    match measureCurr noise st with
    | some v => qResp st (fmtSci v)
    | none => ⟨st, none, false, true⟩
  | .voltModeFix => noResp { stopList st with voltMode := "FIX" }
  | .voltModeList =>
    let p := startList { st with voltMode := "LIST" }
    ⟨p.1, none, p.2, false⟩
  | .voltModeQ => qResp st st.voltMode
  | .currModeFix => noResp { stopList st with currMode := "FIX" }
  | .currModeList =>
    let p := startList { st with currMode := "LIST" }
    ⟨p.1, none, p.2, false⟩
  | .currModeQ => qResp st st.currMode
  | .voltRangAutoQ => qResp st (if st.voltRangeAuto then "1" else "0")
  | .voltRangAuto u =>
    noResp { st with voltRangeAuto := strContainsSub u "ON" || strContainsSub u "1" }
  | .voltRangSet cmd =>
    match parseIntAt cmd 10 with
    | some v => noResp { st with voltRange := v }
    | none => noResp st
  | .voltRangQ => qResp st (toString st.voltRange)
  | .currRangAutoQ => qResp st (if st.currRangeAuto then "1" else "0")
  | .currRangAuto u =>
    noResp { st with currRangeAuto := strContainsSub u "ON" || strContainsSub u "1" }
  | .currRangSet cmd =>
    match parseIntAt cmd 10 with
    | some v => noResp { st with currRange := v }
    | none => noResp st
  | .currRangQ => qResp st (toString st.currRange)
  | .listCle =>
    noResp { st with
      listVolt := []
      listCurr := []
      listDwel := []
      listSeq := []
      listCount := 1
      listCountSkip := 0
      listDir := "UP"
      listGen := "DSEQ"
      listQueryPtr := 0 }
  | .listVoltSet cmd =>
    if st.listCurr ≠ [] then noResp (pushErr st (-221) "Settings conflict")
    else
      let space : ℤ := (maxListPoints : ℤ) - st.listVolt.length
      if space ≤ 0 then noResp st
      else
        let vals := parseFloatList cmd 10 space.toNat
        noResp { st with listVolt := st.listVolt ++ vals.take space.toNat }
  | .listVoltQ =>
    let chunk := pySlice st.listVolt st.listQueryPtr (st.listQueryPtr + 16)
    qResp st (if chunk = [] then "" else String.intercalate "," (chunk.map fmtSci))
  | .listVoltPoinQ => qResp st (toString st.listVolt.length)
  | .listCurrSet cmd =>
    if st.listVolt ≠ [] then noResp (pushErr st (-221) "Settings conflict")
    else
      let space : ℤ := (maxListPoints : ℤ) - st.listCurr.length
      if space ≤ 0 then noResp st
      else
        let vals := parseFloatList cmd 10 space.toNat
        noResp { st with listCurr := st.listCurr ++ vals.take space.toNat }
  | .listCurrQ =>
    let chunk := pySlice st.listCurr st.listQueryPtr (st.listQueryPtr + 16)
    qResp st (if chunk = [] then "" else String.intercalate "," (chunk.map fmtSci))
  | .listCurrPoinQ => qResp st (toString st.listCurr.length)
  | .listDwelSet cmd =>
    let space : ℤ := (maxListPoints : ℤ) - st.listDwel.length
    if space ≤ 0 then noResp st
    else
      let vals := parseFloatList cmd 10 space.toNat
      let st1 :=
        if vals.any (fun v => decide (v < dwellMin) || decide (dwellMax < v)) then
          pushErr st (-222) "Data out of range; dwell must be 0.0005..10.0 s"
        else st
      noResp { st1 with listDwel := st1.listDwel ++ (vals.map clampDwell).take space.toNat }
  | .listDwelQ =>
    let chunk := pySlice st.listDwel st.listQueryPtr (st.listQueryPtr + 16)
    qResp st (if chunk = [] then "" else String.intercalate "," (chunk.map fmtSci))
  | .listDwelPoinQ => qResp st (toString st.listDwel.length)
  | .listCounSkipSet cmd =>
    match parseIntAt cmd 15 with
    | some v => noResp { st with listCountSkip := v }
    | none => noResp st
  | .listCounSkipQ => qResp st (toString st.listCountSkip)
  | .listCounSet cmd =>
    match parseIntAt cmd 10 with
    | some v => noResp { st with listCount := v }
    | none => noResp st
  | .listCounQ => qResp st (toString st.listCount)
  | .listDirUp => noResp { st with listDir := "UP" }
  | .listDirDown => noResp { st with listDir := "DOWN" }
  | .listDirQ => qResp st st.listDir
  | .listGenDseq => noResp { st with listGen := "DSEQ" }
  | .listGenSeq => noResp { st with listGen := "SEQ" }
  | .listGenQ =>
    if st.listRunning then noResp (pushErr st (-221) "Settings conflict; list running")
    else qResp st st.listGen
  | .listSeqSet cmd =>
    let space : ℤ := (maxSeqPoints : ℤ) - st.listSeq.length
    if space ≤ 0 then noResp st
    else
      let vals := parseIntList cmd 9 space.toNat
      noResp { st with listSeq := st.listSeq ++ vals.take space.toNat }
  | .listSeqQ =>
    let chunk := pySlice st.listSeq st.listQueryPtr (st.listQueryPtr + 16)
    qResp st (if chunk = [] then "" else String.intercalate "," (chunk.map toString))
  | .listQuerSet cmd =>
    match parseIntAt cmd 10 with
    | some v => noResp { st with listQueryPtr := v }
    | none => noResp st
  | .listQuerQ => qResp st (toString st.listQueryPtr)
  | .statOperCondQ => qResp st (toString st.operCond)
  | .statOperEnabQ => qResp st (toString st.operEnable)
  | .statOperEnabSet cmd =>
    match parseIntAt cmd 15 with
    | some v => noResp { st with operEnable := v }
    | none => noResp st
  | .statOperQ => qResp { st with operEvent := 0 } (toString st.operEvent)
  | .statQuesCondQ => qResp st (toString st.quesCond)
  | .statQuesEnabQ => qResp st (toString st.quesEnable)
  | .statQuesEnabSet cmd =>
    match parseIntAt cmd 15 with
    | some v => noResp { st with quesEnable := v }
    | none => noResp st
  | .statQuesQ => qResp { st with quesEvent := 0 } (toString st.quesEvent)
  | .initCmd => noResp st
  | .aborCmd => noResp (stopList st)
  | .initContQ => qResp st (if st.initCont then "1" else "0")
  | .initContSet u =>
    noResp { st with initCont := strContainsSub u "ON" || strContainsSub u "1" }
  | .trg => noResp st
  | .unrecognised cmd =>
    noResp (pushErr st (-100) ("Command error; unrecognised: " ++ cmd))

/-- `KepcoDevice._dispatch(cmd)`: the unconditional `cmd_count` bump, then
the routed branch body. -/
def dispatch (noise : ℚ) (st : DeviceState) (cmd : String) : DispatchResult :=
  exec noise { st with cmdCount := st.cmdCount + 1 } (route cmd)

/-- The configuration snapshot `_list_runner` takes under the lock before
executing (mode, data arrays and run parameters). -/
structure ListConfig where
  funcMode : String
  listVolt : List ℚ
  listCurr : List ℚ
  listDwel : List ℚ
  listCount : ℤ
  listCountSkip : ℤ
  listDir : String
  listGen : String
  listSeq : List ℤ

/-- `snapshot` of a device state for the runner. -/
def snapshot (st : DeviceState) : ListConfig :=
  ⟨st.funcMode, st.listVolt, st.listCurr, st.listDwel, st.listCount,
   st.listCountSkip, st.listDir, st.listGen, st.listSeq⟩

/-- `points = list_volt if mode == "VOLT" else list_curr`. -/
def points (c : ListConfig) : List ℚ :=
  if c.funcMode = "VOLT" then c.listVolt else c.listCurr

/-- Dwell resolution: a single entry broadcasts to every point
(`dwells * len(points)` in the source — list repetition); any other length
must match the point count exactly, else the run is aborted (`none`). -/
def resolveDwells (pts dw : List ℚ) : Option (List ℚ) :=
  if dw.length = 1 then some ((List.replicate pts.length dw).flatten)
  else if dw.length ≠ pts.length then none
  else some dw

/-- The resolved execution order: `DSEQ` walks the point indices (reversed
for `DOWN`); any other generator uses the `SEQ` table filtered to entries
`< len(points)` (reversed for `DOWN`).  Entries stay integers: the source
filter admits negative sequence entries. -/
def execOrder (c : ListConfig) : List ℤ :=
  if c.listGen = "DSEQ" then
    if c.listDir = "DOWN" then ((List.range (points c).length).map Int.ofNat).reverse
    else (List.range (points c).length).map Int.ofNat
  else
    if c.listDir = "DOWN" then (c.listSeq.filter (fun s => s < ((points c).length : ℤ))).reverse
    else c.listSeq.filter (fun s => s < ((points c).length : ℤ))

/-- `count if count > 0 else 999999` — the iteration total (the source's
stand-in for an indefinite run when `count = 0`). -/
def totalIters (count : ℤ) : ℕ :=
  if 0 < count then count.toNat else 999999

/-- The step indices iteration `i` executes: the full order on the first
iteration, `order[skip:]` afterwards. -/
def iterSteps (order : List ℤ) (skip : ℤ) (i : ℕ) : List ℤ :=
  if i = 0 then order else pyDropFrom order skip

/-- The `(iteration, step)` schedule of the whole run. -/
def schedule (order : List ℤ) (skip : ℤ) (count : ℤ) : List (ℕ × ℤ) :=
  (List.range (totalIters count)).flatMap (fun i => (iterSteps order skip i).map (fun idx => (i, idx)))

/-- Per-step dwell lookup: `dwells[idx] if idx < len(dwells) else dwells[0]`
(Python indexing; `none` models the `IndexError` a sequence entry below
`-len(dwells)` would raise). -/
def stepDwell (dwells : List ℚ) (idx : ℤ) : Option ℚ :=
  if idx < (dwells.length : ℤ) then pyIdx dwells idx else pyIdx dwells 0

/-- How a run ends: normally, by a pre-loop configuration error pushed to
the error queue, or by an uncaught `IndexError` mid-run. -/
inductive RunOutcome where
  | completed
  | errored (code : ℤ) (msg : String)
  | crashed
deriving DecidableEq

/-- A run's observable behaviour: the executed `(iteration, step index,
clamped dwell)` triples in order, and how the run ended. -/
structure RunResult where
  trace : List (ℕ × ℤ × ℚ)
  outcome : RunOutcome
deriving DecidableEq

/-- Sequential execution of the schedule: each step publishes its indices
and sleeps the clamped dwell; an invalid dwell index aborts the run. -/
def runSteps (dwells : List ℚ) : List (ℕ × ℤ) → RunResult
  | [] => ⟨[], .completed⟩
  | p :: rest =>
    match stepDwell dwells p.2 with
    | none => ⟨[], .crashed⟩
    | some d =>
      let r := runSteps dwells rest
      ⟨(p.1, p.2, clampDwell d) :: r.trace, r.outcome⟩

/-- `_list_runner` on a configuration snapshot, as the pure trace of steps
it executes when neither cancellation nor an external writer intervenes:
empty points abort with `-200`; a dwell length mismatch aborts with `-221`;
an empty resolved order aborts with `-221`; otherwise every iteration
executes its schedule slice in order. -/
def listRunner (c : ListConfig) : RunResult :=
  if points c = [] then ⟨[], .errored (-200) "Execution error; list empty"⟩
  else
    match resolveDwells (points c) c.listDwel with
    | none => ⟨[], .errored (-221) "Settings conflict; dwell/point mismatch"⟩
    | some dwells =>
      if execOrder c = [] then ⟨[], .errored (-221) "Settings conflict; empty sequence"⟩
      else runSteps dwells (schedule (execOrder c) c.listCountSkip c.listCount)

/-- The step indices a run publishes during iteration `k`, in order. -/
def stepsOfIter (r : RunResult) (k : ℕ) : List ℤ :=
  (r.trace.filter (fun e => e.1 = k)).map (fun e => e.2.1)


/-! ### Route evaluations for the concrete commands used by the claims -/

set_option maxHeartbeats 1000000 in
/-- Routing of the literal `OUTP OFF` command. -/
theorem route_outpOff : route "OUTP OFF" = Cmd.outpOff := rfl

set_option maxHeartbeats 1000000 in
/-- Routing of the literal `OUTP ON` command. -/
theorem route_outpOn : route "OUTP ON" = Cmd.outpOn := rfl

set_option maxHeartbeats 1000000 in
/-- Routing of the literal `VOLT:MODE LIST` command. -/
theorem route_voltModeList : route "VOLT:MODE LIST" = Cmd.voltModeList := rfl

set_option maxHeartbeats 1000000 in
/-- Routing of the literal `CURR:MODE LIST` command. -/
theorem route_currModeList : route "CURR:MODE LIST" = Cmd.currModeList := rfl

set_option maxHeartbeats 1000000 in
/-- Routing of the literal `SYST:ERR?` command. -/
theorem route_systErrQ : route "SYST:ERR?" = Cmd.systErrQ := rfl

/-- Claim C1: for every device state, `OUTP OFF` zeroes both setpoints and
stashes the prior values in the saved fields, and a following `OUTP ON`
restores the exact setpoints held immediately before the `OUTP OFF`. -/
theorem c1_outp_off_on_roundtrip (noise : ℚ) (st : DeviceState) :
    (dispatch noise st "OUTP OFF").state.voltSetpoint = 0 ∧
    (dispatch noise st "OUTP OFF").state.currSetpoint = 0 ∧
    (dispatch noise st "OUTP OFF").state.voltSaved = st.voltSetpoint ∧
    (dispatch noise st "OUTP OFF").state.currSaved = st.currSetpoint ∧
    (dispatch noise (dispatch noise st "OUTP OFF").state "OUTP ON").state.voltSetpoint
      = st.voltSetpoint ∧
    (dispatch noise (dispatch noise st "OUTP OFF").state "OUTP ON").state.currSetpoint
      = st.currSetpoint := by
  simp [dispatch, route_outpOff, route_outpOn, exec, noResp]

/-- Claim C4: dispatching `VOLT:MODE LIST` or `CURR:MODE LIST` while a run
is active appends exactly one `-221` settings-conflict entry, spawns no
second runner, and leaves the run's progress state (`listRunning`,
`listStepIdx`, `listIteration`, the stop event) unchanged — the only other
effects are the command counter bump and the mode label write. -/
theorem c4_start_while_running (noise : ℚ) (st : DeviceState)
    (h : st.listRunning = true) :
    ((dispatch noise st "VOLT:MODE LIST").state =
      { st with
          cmdCount := st.cmdCount + 1
          voltMode := "LIST"
          errorQueue := st.errorQueue ++
            [((-221 : ℤ), "Settings conflict; list already running")] } ∧
     (dispatch noise st "VOLT:MODE LIST").resp = none ∧
     (dispatch noise st "VOLT:MODE LIST").started = false) ∧
    ((dispatch noise st "CURR:MODE LIST").state =
      { st with
          cmdCount := st.cmdCount + 1
          currMode := "LIST"
          errorQueue := st.errorQueue ++
            [((-221 : ℤ), "Settings conflict; list already running")] } ∧
     (dispatch noise st "CURR:MODE LIST").resp = none ∧
     (dispatch noise st "CURR:MODE LIST").started = false) := by
  simp [dispatch, route_voltModeList, route_currModeList, exec, startList, h,
    pushErr, noResp]

/-- A device state with an active LIST run, used to witness claims with a
`listRunning` hypothesis. -/
def runningState : DeviceState :=
  { initState with listRunning := true, listStepIdx := 2, listIteration := 1 }

/-- Witness for `c4_start_while_running` at a concrete running state. -/
theorem c4_start_while_running_witness :
    runningState.listRunning = true ∧
    ((dispatch 0 runningState "VOLT:MODE LIST").state =
      { runningState with
          cmdCount := runningState.cmdCount + 1
          voltMode := "LIST"
          errorQueue := runningState.errorQueue ++
            [((-221 : ℤ), "Settings conflict; list already running")] } ∧
     (dispatch 0 runningState "VOLT:MODE LIST").resp = none ∧
     (dispatch 0 runningState "VOLT:MODE LIST").started = false) ∧
    ((dispatch 0 runningState "CURR:MODE LIST").state =
      { runningState with
          cmdCount := runningState.cmdCount + 1
          currMode := "LIST"
          errorQueue := runningState.errorQueue ++
            [((-221 : ℤ), "Settings conflict; list already running")] } ∧
     (dispatch 0 runningState "CURR:MODE LIST").resp = none ∧
     (dispatch 0 runningState "CURR:MODE LIST").started = false) :=
  ⟨rfl, c4_start_while_running 0 runningState rfl⟩

set_option maxRecDepth 20000 in
/-- Counterexample to claim C7 as stated: the entry enqueued for the
unrecognised fragment `FOO:BAR` carries the message
`Command error; unrecognised: FOO:BAR`, not the bare `Command error` the
claim asserts, and the command counter also changes. -/
theorem c7_counterexample :
    (dispatch 0 initState "FOO:BAR").state.errorQueue =
      [((-100 : ℤ), "Command error; unrecognised: FOO:BAR")] ∧
    ((-100 : ℤ), "Command error") ∉ (dispatch 0 initState "FOO:BAR").state.errorQueue ∧
    (dispatch 0 initState "FOO:BAR").state.cmdCount = 1 ∧ initState.cmdCount = 0 := by
  with_unfolding_all decide

/-- Claim C7 (amended): dispatching any fragment the router does not
recognise produces no response, spawns nothing, and appends exactly one
`-100` entry whose message is `Command error; unrecognised: <cmd>`; the
only other state change is the command counter bump. -/
theorem c7_unrecognised (noise : ℚ) (st : DeviceState) (cmd : String)
    (h : route cmd = Cmd.unrecognised cmd) :
    dispatch noise st cmd =
      ⟨{ st with
          cmdCount := st.cmdCount + 1
          errorQueue := st.errorQueue ++
            [((-100 : ℤ), "Command error; unrecognised: " ++ cmd)] },
        none, false, false⟩ := by
  simp [dispatch, h, exec, pushErr, noResp]

set_option maxHeartbeats 1000000 in
/-- Witness for `c7_unrecognised` at the claim's own example fragment. -/
theorem c7_unrecognised_witness :
    dispatch 0 initState "FOO:BAR" =
      ⟨{ initState with
          cmdCount := initState.cmdCount + 1
          errorQueue := initState.errorQueue ++
            [((-100 : ℤ), "Command error; unrecognised: " ++ "FOO:BAR")] },
        none, false, false⟩ :=
  c7_unrecognised 0 initState "FOO:BAR" rfl

/-- Claim C8: `SYST:ERR?` on an empty error queue answers the sentinel
`0,"No error"` and leaves the queue empty (so repeated draining stays at
the sentinel until a new error is enqueued); the only state changes are
the command and query counter bumps. -/
theorem c8_err_query_empty (noise : ℚ) (st : DeviceState)
    (h : st.errorQueue = []) :
    (dispatch noise st "SYST:ERR?").resp = some "0,\"No error\"" ∧
    (dispatch noise st "SYST:ERR?").state.errorQueue = [] ∧
    (dispatch noise st "SYST:ERR?").state =
      { st with cmdCount := st.cmdCount + 1, queryCount := st.queryCount + 1 } := by
  refine ⟨?_, ?_, ?_⟩ <;>
    · simp [dispatch, route_systErrQ, exec, popErr, h, qResp, fmtErr]
      try rfl

/-- Witness for `c8_err_query_empty` at the power-on state. -/
theorem c8_err_query_empty_witness :
    (dispatch 0 initState "SYST:ERR?").resp = some "0,\"No error\"" ∧
    (dispatch 0 initState "SYST:ERR?").state.errorQueue = [] ∧
    (dispatch 0 initState "SYST:ERR?").state =
      { initState with
          cmdCount := initState.cmdCount + 1
          queryCount := initState.queryCount + 1 } :=
  c8_err_query_empty 0 initState rfl


/-- The saved/setpoint coupling that holds while the output is on:
`voltSaved`/`currSaved` mirror the live setpoints. -/
def SavedInv (st : DeviceState) : Prop :=
  st.outputOn = true → st.voltSaved = st.voltSetpoint ∧ st.currSaved = st.currSetpoint

/-- Every branch body of `_dispatch` preserves the saved/setpoint
coupling. -/
theorem exec_preserves_savedInv (noise : ℚ) (st : DeviceState) (c : Cmd)
    (h : SavedInv st) : SavedInv (exec noise st c).state := by
  cases c <;>
    simp only [exec, qResp, noResp, SavedInv, stopList, startList, pushErr, popErr,
      resetState, initState] at h ⊢ <;>
    (try split) <;>
    (try split) <;>
    simp_all


/-- Claim C9: whenever the output is on, the saved fields equal the live
setpoints, and every dispatched SCPI command preserves this invariant
(`OUTP ON` restores from the saved fields, a setpoint write while on also
writes the saved field, `*RST` reestablishes it with output off). -/
theorem c9_savedInv_preserved (noise : ℚ) (st : DeviceState) (cmd : String)
    (h : SavedInv st) : SavedInv (dispatch noise st cmd).state :=
  exec_preserves_savedInv noise { st with cmdCount := st.cmdCount + 1 } (route cmd)
    (fun hOn => h hOn)

/-- Witness for `c9_savedInv_preserved`: the power-on state satisfies the
invariant and a concrete setpoint write keeps it. -/
theorem c9_savedInv_preserved_witness :
    SavedInv initState ∧ SavedInv (dispatch 0 initState "VOLT 5").state :=
  ⟨(fun hOn => nomatch hOn),
   c9_savedInv_preserved 0 initState "VOLT 5" (fun hOn => nomatch hOn)⟩


/-- The dwell clamp lands in the legal dwell band. -/
theorem clampDwell_bounds (v : ℚ) : dwellMin ≤ clampDwell v ∧ clampDwell v ≤ dwellMax := by
  unfold clampDwell
  split_ifs with h1 h2
  · constructor
    · exact le_refl _
    · norm_num [dwellMin, dwellMax]
  · constructor
    · norm_num [dwellMin, dwellMax]
    · exact le_refl _
  · exact ⟨le_of_not_lt h1, le_of_not_lt h2⟩

set_option maxHeartbeats 1000000 in
/-- Routing of a concrete `LIST:DWEL` data command. -/
theorem route_listDwel_ex :
    route "LIST:DWEL 0.0001,5" = Cmd.listDwelSet "LIST:DWEL 0.0001,5" := rfl

/-- Claim C6: a well-formed `LIST:DWEL` command stores only values clamped
into `[0.0005, 10]` (each parsed value below the band is stored as the
minimum, each above as the maximum), enqueues a `-222` data-out-of-range
entry exactly when some parsed value lies outside the band, and produces
no response. -/
theorem c6_dwel_clamped (noise : ℚ) (st : DeviceState) (cmd : String)
    (hroute : route cmd = Cmd.listDwelSet cmd)
    (hlen : st.listDwel.length < maxListPoints) :
    (dispatch noise st cmd).state.listDwel =
      st.listDwel ++
        ((parseFloatList cmd 10 (maxListPoints - st.listDwel.length)).map clampDwell).take
          (maxListPoints - st.listDwel.length) ∧
    (∀ v ∈ (parseFloatList cmd 10 (maxListPoints - st.listDwel.length)).map clampDwell,
      dwellMin ≤ v ∧ v ≤ dwellMax) ∧
    ((dispatch noise st cmd).state.errorQueue =
        st.errorQueue ++ [((-222 : ℤ), "Data out of range; dwell must be 0.0005..10.0 s")] ↔
      ∃ v ∈ parseFloatList cmd 10 (maxListPoints - st.listDwel.length),
        v < dwellMin ∨ dwellMax < v) ∧
    ((dispatch noise st cmd).state.errorQueue = st.errorQueue ↔
      ¬ ∃ v ∈ parseFloatList cmd 10 (maxListPoints - st.listDwel.length),
        v < dwellMin ∨ dwellMax < v) ∧
    (dispatch noise st cmd).resp = none := by
  have hn : ¬ ((maxListPoints : ℤ) - (st.listDwel.length : ℤ) ≤ 0) := by
    simp only [maxListPoints] at hlen ⊢; omega
  have ht : ((maxListPoints : ℤ) - (st.listDwel.length : ℤ)).toNat =
      maxListPoints - st.listDwel.length := by
    simp only [maxListPoints] at hlen ⊢; omega
  have hn2 : ¬ (maxListPoints ≤ st.listDwel.length) := Nat.not_le.mpr hlen
  have hiff : (parseFloatList cmd 10 (maxListPoints - st.listDwel.length)).any
        (fun v => decide (v < dwellMin) || decide (dwellMax < v)) = true ↔
      ∃ v ∈ parseFloatList cmd 10 (maxListPoints - st.listDwel.length),
        v < dwellMin ∨ dwellMax < v := by
    simp [List.any_eq_true]
  refine ⟨?_, ?_, ?_, ?_, ?_⟩
  · simp only [dispatch, hroute, exec, if_neg hn, ht, pushErr, noResp]
    split <;> simp
  · intro v hv
    simp only [List.mem_map] at hv
    obtain ⟨w, _, rfl⟩ := hv
    exact clampDwell_bounds w
  · by_cases hany : (parseFloatList cmd 10 (maxListPoints - st.listDwel.length)).any
        (fun v => decide (v < dwellMin) || decide (dwellMax < v)) = true
    · have h3 : (dispatch noise st cmd).state.errorQueue =
          st.errorQueue ++ [((-222 : ℤ), "Data out of range; dwell must be 0.0005..10.0 s")] := by
        simp [dispatch, hroute, exec, hn, hn2, ht, hany, pushErr, noResp]
      rw [h3]
      exact iff_of_true rfl (hiff.mp hany)
    · have h3 : (dispatch noise st cmd).state.errorQueue = st.errorQueue := by
        simp [dispatch, hroute, exec, hn, hn2, ht, hany, pushErr, noResp]
      rw [h3]
      refine iff_of_false ?_ (fun hx => hany (hiff.mpr hx))
      intro he
      exact absurd (congrArg List.length he) (by simp)
  · by_cases hany : (parseFloatList cmd 10 (maxListPoints - st.listDwel.length)).any
        (fun v => decide (v < dwellMin) || decide (dwellMax < v)) = true
    · have h3 : (dispatch noise st cmd).state.errorQueue =
          st.errorQueue ++ [((-222 : ℤ), "Data out of range; dwell must be 0.0005..10.0 s")] := by
        simp [dispatch, hroute, exec, hn, hn2, ht, hany, pushErr, noResp]
      rw [h3]
      refine iff_of_false ?_ (fun hx => hx (hiff.mp hany))
      intro he
      exact absurd (congrArg List.length he) (by simp)
    · have h3 : (dispatch noise st cmd).state.errorQueue = st.errorQueue := by
        simp [dispatch, hroute, exec, hn, hn2, ht, hany, pushErr, noResp]
      rw [h3]
      exact iff_of_true rfl (fun hx => hany (hiff.mpr hx))
  · simp only [dispatch, hroute, exec, if_neg hn, ht, pushErr, noResp]


/-- Witness for `c6_dwel_clamped` on a concrete command whose first value
(0.0001 s) lies below the dwell band. -/
theorem c6_dwel_clamped_witness :
    (dispatch 0 initState "LIST:DWEL 0.0001,5").state.listDwel =
      initState.listDwel ++
        ((parseFloatList "LIST:DWEL 0.0001,5" 10
            (maxListPoints - initState.listDwel.length)).map clampDwell).take
          (maxListPoints - initState.listDwel.length) ∧
    (∀ v ∈ (parseFloatList "LIST:DWEL 0.0001,5" 10
        (maxListPoints - initState.listDwel.length)).map clampDwell,
      dwellMin ≤ v ∧ v ≤ dwellMax) ∧
    ((dispatch 0 initState "LIST:DWEL 0.0001,5").state.errorQueue =
        initState.errorQueue ++
          [((-222 : ℤ), "Data out of range; dwell must be 0.0005..10.0 s")] ↔
      ∃ v ∈ parseFloatList "LIST:DWEL 0.0001,5" 10
          (maxListPoints - initState.listDwel.length),
        v < dwellMin ∨ dwellMax < v) ∧
    ((dispatch 0 initState "LIST:DWEL 0.0001,5").state.errorQueue = initState.errorQueue ↔
      ¬ ∃ v ∈ parseFloatList "LIST:DWEL 0.0001,5" 10
          (maxListPoints - initState.listDwel.length),
        v < dwellMin ∨ dwellMax < v) ∧
    (dispatch 0 initState "LIST:DWEL 0.0001,5").resp = none :=
  c6_dwel_clamped 0 initState "LIST:DWEL 0.0001,5" route_listDwel_ex (by decide)


set_option maxRecDepth 20000 in
/-- Counterexample to claim C10 as stated: the payload `1,,2` contains the
token `""` (between the adjacent commas), which does not parse as a float,
yet the parser does not return the empty list — both well-formed values
are appended and no error is enqueued.  (Stripped-empty tokens are skipped
before `float` is ever called, so they cannot trigger the all-or-nothing
abort.) -/
theorem c10_counterexample :
    pyFloat (pyStrip "") = none ∧
    "" ∈ pySplitComma (pyDrop "LIST:DWEL 1,,2" 10) ∧
    (dispatch 0 initState "LIST:DWEL 1,,2").state.listDwel = [1, 2] ∧
    (dispatch 0 initState "LIST:DWEL 1,,2").state.errorQueue = [] := by
  with_unfolding_all decide

/-- A payload position that makes the list parser abort: some segment
strips to a non-empty token that `float` rejects, with fewer than `cap`
non-empty tokens before it (so the token-collection loop actually reaches
it before hitting its item cap). -/
def hasBadToken (payload : String) (cap : ℕ) : Prop :=
  ∃ pre s post, pySplitComma payload = pre ++ s :: post ∧ pyStrip s ≠ "" ∧
    pyFloat (pyStrip s) = none ∧ pre.countP (fun t => pyStrip t != "") < cap

/-- The collection loop aborts (models the `ValueError` escape) whenever it
reaches a non-empty token that fails to parse. -/
theorem collectFloats_eq_none (maxItems : ℕ) (pre : List String) (s : String)
    (post : List String) (hne : pyStrip s ≠ "") (hbad : pyFloat (pyStrip s) = none)
    (hcnt : pre.countP (fun t => pyStrip t != "") < maxItems) :
    collectFloats maxItems (pre ++ s :: post) = none := by
  induction pre generalizing maxItems with
  | nil =>
    have hm : maxItems ≠ 0 := by
      simp only [List.countP_nil] at hcnt; omega
    simp [collectFloats, hm, hne, hbad]
  | cons t rest ih =>
    have hm : maxItems ≠ 0 := Nat.not_eq_zero_of_lt hcnt
    rw [List.cons_append]
    by_cases hts : pyStrip t = ""
    · have hcnt2 : rest.countP (fun t => pyStrip t != "") < maxItems := by
        simpa [List.countP_cons, hts] using hcnt
      simp [collectFloats, hm, hts, ih maxItems hcnt2]
    · cases hpt : pyFloat (pyStrip t) with
      | none => simp [collectFloats, hm, hts, hpt]
      | some v =>
        have hcnt2 : rest.countP (fun t => pyStrip t != "") < maxItems - 1 := by
          have := hcnt
          simp only [List.countP_cons, hts] at this
          simp only [bne_iff_ne, ne_eq, hts, not_false_eq_true, if_pos] at this
          omega
        simp [collectFloats, hm, hts, hpt, ih (maxItems - 1) hcnt2]

/-- A bad token empties the whole parse (`except ValueError: return []`). -/
theorem parseFloatList_eq_nil (cmd : String) (offset cap : ℕ)
    (h : hasBadToken (pyDrop cmd offset) cap) :
    parseFloatList cmd offset cap = [] := by
  obtain ⟨pre, s, post, hsplit, hne, hbad, hcnt⟩ := h
  unfold parseFloatList
  rw [hsplit, collectFloats_eq_none cap pre s post hne hbad hcnt]

/-- Claim C10 (amended): when a `LIST:DWEL`, `LIST:VOLT` or `LIST:CURR`
data command's payload contains a stripped-non-empty token that does not
parse as a float among the tokens the capped collection loop examines (and,
for `LIST:VOLT`/`LIST:CURR`, the opposite-quantity list is empty so no
settings-conflict entry intervenes), the parser returns the empty list: no
values at all are appended — including well-formed tokens preceding the
malformed one — no error is enqueued, and no response is produced; the
command counter bump is the only state change. -/
theorem c10_bad_token_all_or_nothing (noise : ℚ) (st : DeviceState) (cmd : String) :
    (route cmd = Cmd.listDwelSet cmd →
      hasBadToken (pyDrop cmd 10) (maxListPoints - st.listDwel.length) →
      dispatch noise st cmd = ⟨{ st with cmdCount := st.cmdCount + 1 }, none, false, false⟩) ∧
    (route cmd = Cmd.listVoltSet cmd → st.listCurr = [] →
      hasBadToken (pyDrop cmd 10) (maxListPoints - st.listVolt.length) →
      dispatch noise st cmd = ⟨{ st with cmdCount := st.cmdCount + 1 }, none, false, false⟩) ∧
    (route cmd = Cmd.listCurrSet cmd → st.listVolt = [] →
      hasBadToken (pyDrop cmd 10) (maxListPoints - st.listCurr.length) →
      dispatch noise st cmd = ⟨{ st with cmdCount := st.cmdCount + 1 }, none, false, false⟩) := by
  refine ⟨?_, ?_, ?_⟩
  · intro hr hbad
    by_cases hsp : (maxListPoints : ℤ) - (st.listDwel.length : ℤ) ≤ 0
    · have hcap : maxListPoints - st.listDwel.length = 0 := by
        simp only [maxListPoints] at hsp ⊢; omega
      obtain ⟨_, _, _, _, _, _, hcnt⟩ := hbad
      rw [hcap] at hcnt
      exact absurd hcnt (Nat.not_lt_zero _)
    · have ht : ((maxListPoints : ℤ) - (st.listDwel.length : ℤ)).toNat =
          maxListPoints - st.listDwel.length := by
        simp only [maxListPoints] at hsp ⊢; omega
      have hnil := parseFloatList_eq_nil cmd 10 (maxListPoints - st.listDwel.length) hbad
      simp [dispatch, hr, exec, hsp, ht, hnil, noResp]
  · intro hr hconf hbad
    by_cases hsp : (maxListPoints : ℤ) - (st.listVolt.length : ℤ) ≤ 0
    · have hcap : maxListPoints - st.listVolt.length = 0 := by
        simp only [maxListPoints] at hsp ⊢; omega
      obtain ⟨_, _, _, _, _, _, hcnt⟩ := hbad
      rw [hcap] at hcnt
      exact absurd hcnt (Nat.not_lt_zero _)
    · have ht : ((maxListPoints : ℤ) - (st.listVolt.length : ℤ)).toNat =
          maxListPoints - st.listVolt.length := by
        simp only [maxListPoints] at hsp ⊢; omega
      have hnil := parseFloatList_eq_nil cmd 10 (maxListPoints - st.listVolt.length) hbad
      simp [dispatch, hr, exec, hconf, hsp, ht, hnil, noResp]
  · intro hr hconf hbad
    by_cases hsp : (maxListPoints : ℤ) - (st.listCurr.length : ℤ) ≤ 0
    · have hcap : maxListPoints - st.listCurr.length = 0 := by
        simp only [maxListPoints] at hsp ⊢; omega
      obtain ⟨_, _, _, _, _, _, hcnt⟩ := hbad
      rw [hcap] at hcnt
      exact absurd hcnt (Nat.not_lt_zero _)
    · have ht : ((maxListPoints : ℤ) - (st.listCurr.length : ℤ)).toNat =
          maxListPoints - st.listCurr.length := by
        simp only [maxListPoints] at hsp ⊢; omega
      have hnil := parseFloatList_eq_nil cmd 10 (maxListPoints - st.listCurr.length) hbad
      simp [dispatch, hr, exec, hconf, hsp, ht, hnil, noResp]

set_option maxHeartbeats 1000000 in
/-- Routing of a concrete `LIST:DWEL` command with a malformed token. -/
theorem route_listDwel_bad :
    route "LIST:DWEL 1,x" = Cmd.listDwelSet "LIST:DWEL 1,x" := rfl

/-- Witness for `c10_bad_token_all_or_nothing`: `LIST:DWEL 1,x` appends
nothing (the well-formed leading `1` included) and queues no error. -/
theorem c10_bad_token_all_or_nothing_witness :
    dispatch 0 initState "LIST:DWEL 1,x" =
      ⟨{ initState with cmdCount := initState.cmdCount + 1 }, none, false, false⟩ :=
  (c10_bad_token_all_or_nothing 0 initState "LIST:DWEL 1,x").1 route_listDwel_bad
    ⟨["1"], "x", [], by with_unfolding_all decide, by with_unfolding_all decide,
      by with_unfolding_all decide, by with_unfolding_all decide⟩


/-- Flattening `n` copies of a singleton is an `n`-fold replicate (the
Python list repetition `[d] * n`). -/
theorem flatten_replicate_singleton {α : Type} (n : ℕ) (d : α) :
    (List.replicate n [d]).flatten = List.replicate n d := by
  induction n with
  | zero => rfl
  | succ m ih => simp [List.replicate_succ, ih]

/-- A singleton dwell array resolves to the broadcast array. -/
theorem resolveDwells_single (pts : List ℚ) (d : ℚ) :
    resolveDwells pts [d] = some (List.replicate pts.length d) := by
  simp [resolveDwells, flatten_replicate_singleton]

/-- An explicit `[d] * N` dwell array resolves to itself. -/
theorem resolveDwells_replicate (pts : List ℚ) (d : ℚ) :
    resolveDwells pts (List.replicate pts.length d) =
      some (List.replicate pts.length d) := by
  unfold resolveDwells
  by_cases h1 : pts.length = 1
  · simp [h1, flatten_replicate_singleton]
  · simp [h1]

/-- Claim C5: a run configured with the singleton dwell array `[d]`
behaves exactly like one configured with `[d] * N` (`N` the point count) —
same step/dwell trace, same outcome; and a dwell array whose length is
neither `1` nor `N` aborts with a `-221` settings-conflict before any step
executes. -/
theorem c5_dwell_broadcast :
    (∀ (c : ListConfig) (d : ℚ), c.listDwel = [d] →
      listRunner c =
        listRunner { c with listDwel := List.replicate (points c).length d }) ∧
    (∀ c : ListConfig, points c ≠ [] → c.listDwel.length ≠ 1 →
      c.listDwel.length ≠ (points c).length →
      (listRunner c).trace = [] ∧
      (listRunner c).outcome =
        .errored (-221) "Settings conflict; dwell/point mismatch") := by
  constructor
  · intro c d hd
    have hpts : points { c with listDwel := List.replicate (points c).length d }
        = points c := rfl
    have hord : execOrder { c with listDwel := List.replicate (points c).length d }
        = execOrder c := rfl
    unfold listRunner
    rw [hpts, hord]
    have hres1 : resolveDwells (points c) c.listDwel =
        some (List.replicate (points c).length d) := by
      rw [hd]; exact resolveDwells_single (points c) d
    have hproj : ({ c with listDwel := List.replicate (points c).length d }).listDwel
        = List.replicate (points c).length d := rfl
    rw [hproj, hres1, resolveDwells_replicate (points c) d]
  · intro c h1 h2 h3
    have hres : resolveDwells (points c) c.listDwel = none := by
      simp [resolveDwells, h2, h3]
    unfold listRunner
    rw [if_neg h1, hres]
    exact ⟨rfl, rfl⟩

/-- A two-point voltage run with the singleton dwell array. -/
def cfgSingleDwell : ListConfig := ⟨"VOLT", [1, 2], [], [1], 2, 0, "UP", "DSEQ", []⟩

/-- A two-point voltage run with a three-entry dwell array (mismatched). -/
def cfgBadDwell : ListConfig := ⟨"VOLT", [1, 2], [], [1, 1, 1], 1, 0, "UP", "DSEQ", []⟩

/-- Witness for `c5_dwell_broadcast` on concrete two-point runs. -/
theorem c5_dwell_broadcast_witness :
    listRunner cfgSingleDwell =
      listRunner { cfgSingleDwell with
        listDwel := List.replicate (points cfgSingleDwell).length 1 } ∧
    (listRunner cfgBadDwell).trace = [] ∧
    (listRunner cfgBadDwell).outcome =
      .errored (-221) "Settings conflict; dwell/point mismatch" :=
  ⟨c5_dwell_broadcast.1 cfgSingleDwell 1 rfl,
   c5_dwell_broadcast.2 cfgBadDwell (by decide) (by decide) (by decide)⟩


/-- When every scheduled step has a valid dwell index, the runner executes
the whole schedule and completes. -/
theorem runSteps_of_valid (dwells : List ℚ) (l : List (ℕ × ℤ))
    (h : ∀ p ∈ l, (stepDwell dwells p.2).isSome) :
    runSteps dwells l =
      ⟨l.map (fun p => (p.1, p.2, clampDwell ((stepDwell dwells p.2).getD 0))),
        .completed⟩ := by
  induction l with
  | nil => rfl
  | cons p rest ih =>
    obtain ⟨d, hd⟩ := Option.isSome_iff_exists.mp (h p (List.mem_cons_self p rest))
    have ih2 := ih (fun q hq => h q (List.mem_cons_of_mem p hq))
    simp [runSteps, hd, ih2]

/-- No trace entry of the first `n` iterations carries an iteration number
`≥ n`. -/
theorem filter_triple_ge {γ : Type} (n k : ℕ) (hk : n ≤ k) (g : ℕ → List ℤ)
    (v : ℤ → γ) :
    (((List.range n).flatMap (fun i => (g i).map (fun idx => (i, idx, v idx)))).filter
      (fun e => e.1 = k)) = [] := by
  rw [List.filter_eq_nil_iff]
  intro p hp
  simp only [List.mem_flatMap, List.mem_range, List.mem_map] at hp
  obtain ⟨i, hi, b, _, rfl⟩ := hp
  simp only [decide_eq_true_eq]
  omega

/-- Selecting one iteration's entries out of the full trace recovers
exactly that iteration's step block, in order. -/
theorem filter_triple {γ : Type} (n k : ℕ) (hk : k < n) (g : ℕ → List ℤ)
    (v : ℤ → γ) :
    ((((List.range n).flatMap (fun i => (g i).map (fun idx => (i, idx, v idx)))).filter
      (fun e => e.1 = k)).map (fun e => e.2.1)) = g k := by
  induction n with
  | zero => omega
  | succ m ih =>
    rw [List.range_succ, List.flatMap_append, List.filter_append, List.map_append]
    rcases Nat.lt_or_ge k m with h | h
    · rw [ih h]
      have h2 : (((List.flatMap [m] fun i => (g i).map (fun idx => (i, idx, v idx)))).filter
          (fun e => e.1 = k)) = [] := by
        rw [List.filter_eq_nil_iff]
        intro p hp
        simp only [List.flatMap_cons, List.flatMap_nil, List.append_nil,
          List.mem_map] at hp
        obtain ⟨b, _, rfl⟩ := hp
        simp only [decide_eq_true_eq]
        omega
      rw [h2]
      simp
    · have hkm : k = m := by omega
      subst hkm
      rw [filter_triple_ge k k (le_refl k) g v]
      simp only [List.map_nil, List.nil_append]
      simp only [List.flatMap_cons, List.flatMap_nil, List.append_nil]
      have h3 : (((g k).map (fun idx => (k, idx, v idx))).filter (fun e => e.1 = k)) =
          (g k).map (fun idx => (k, idx, v idx)) := by
        rw [List.filter_eq_self]
        intro p hp
        simp only [List.mem_map] at hp
        obtain ⟨b, _, rfl⟩ := hp
        simp
      rw [h3, List.map_map]
      simp [Function.comp_def]

/-- Every step index any iteration executes comes from the resolved
order. -/
theorem iterSteps_subset (order : List ℤ) (skip : ℤ) (i : ℕ) :
    iterSteps order skip i ⊆ order := by
  unfold iterSteps
  split
  · exact fun _ h => h
  · unfold pyDropFrom
    split <;> exact List.drop_subset _ _

/-- Claim C2: under a valid configuration (non-empty points, resolvable
dwells, non-empty order `o`, every ordered index valid for the dwell
array), iteration 0 visits exactly the steps of `o` in order, and every
later iteration (within the iteration total) visits exactly `o[skip:]` in
order. -/
theorem c2_iteration_schedule (c : ListConfig) (dwells : List ℚ)
    (h1 : points c ≠ [])
    (h2 : resolveDwells (points c) c.listDwel = some dwells)
    (h3 : execOrder c ≠ [])
    (h4 : ∀ idx ∈ execOrder c, (stepDwell dwells idx).isSome)
    (k : ℕ) (hk : k < totalIters c.listCount) :
    stepsOfIter (listRunner c) k =
      if k = 0 then execOrder c else pyDropFrom (execOrder c) c.listCountSkip := by
  have hrun : listRunner c =
      runSteps dwells (schedule (execOrder c) c.listCountSkip c.listCount) := by
    unfold listRunner
    rw [if_neg h1, h2]
    exact if_neg h3
  have hvalid : ∀ p ∈ schedule (execOrder c) c.listCountSkip c.listCount,
      (stepDwell dwells p.2).isSome := by
    intro p hp
    simp only [schedule, List.mem_flatMap, List.mem_range, List.mem_map] at hp
    obtain ⟨i, _, idx, hidx, rfl⟩ := hp
    exact h4 idx (iterSteps_subset (execOrder c) c.listCountSkip i hidx)
  rw [hrun, runSteps_of_valid dwells _ hvalid]
  unfold stepsOfIter schedule
  rw [List.map_flatMap]
  simp only [List.map_map, Function.comp_def]
  exact (filter_triple (totalIters c.listCount) k hk
    (fun i => iterSteps (execOrder c) c.listCountSkip i)
    (fun idx => clampDwell ((stepDwell dwells idx).getD 0))).trans rfl


/-- The claim's end-to-end scenario: 4 points, `listCount = 2`,
`listCountSkip = 1`, default-sequence order, direction UP. -/
def cfgFourPoints : ListConfig := ⟨"VOLT", [1, 2, 3, 4], [], [1], 2, 1, "UP", "DSEQ", []⟩

/-- Witness for `c2_iteration_schedule`: the first iteration visits steps
`[0, 1, 2, 3]` and the second visits `[1, 2, 3]`. -/
theorem c2_iteration_schedule_witness :
    stepsOfIter (listRunner cfgFourPoints) 0 = [0, 1, 2, 3] ∧
    stepsOfIter (listRunner cfgFourPoints) 1 = [1, 2, 3] :=
  ⟨(c2_iteration_schedule cfgFourPoints [1, 1, 1, 1]
      (by with_unfolding_all decide) (by with_unfolding_all decide)
      (by with_unfolding_all decide) (by with_unfolding_all decide)
      0 (by with_unfolding_all decide)).trans (by with_unfolding_all decide),
   (c2_iteration_schedule cfgFourPoints [1, 1, 1, 1]
      (by with_unfolding_all decide) (by with_unfolding_all decide)
      (by with_unfolding_all decide) (by with_unfolding_all decide)
      1 (by with_unfolding_all decide)).trans (by with_unfolding_all decide)⟩


/-- A range-indexed flatMap in which only index 0 contributes collapses to
its first block. -/
theorem flatMap_range_head {β : Type} (n : ℕ) (f : ℕ → List β) (hn : 0 < n)
    (hf : ∀ i, 0 < i → f i = []) : (List.range n).flatMap f = f 0 := by
  induction n with
  | zero => omega
  | succ m ih =>
    rw [List.range_succ, List.flatMap_append]
    rcases Nat.eq_zero_or_pos m with h | h
    · subst h
      simp
    · rw [ih h]
      simp [hf m h]

/-- A one-point run with `listCount = 0` and `listCountSkip = 1`, so that
only iteration 0 contributes steps. -/
def cfgCountZero : ListConfig := ⟨"VOLT", [1], [], [1], 0, 1, "UP", "DSEQ", []⟩

/-- Counterexample to claim C3 as stated: with `listCount = 0` the run is
not indefinite — the iteration loop is bounded by the source's `999999`
stand-in, and this concrete `listCount = 0` run finishes on its own
(outcome `completed`, finite trace), ended neither by cancellation nor by
an error. -/
theorem c3_counterexample :
    listRunner cfgCountZero = ⟨[(0, 0, 1)], .completed⟩ := by
  have h1 : ¬ (points cfgCountZero = []) := by with_unfolding_all decide
  have h2 : resolveDwells (points cfgCountZero) cfgCountZero.listDwel = some [1] := by
    with_unfolding_all decide
  have h3 : ¬ (execOrder cfgCountZero = []) := by with_unfolding_all decide
  have hrun : listRunner cfgCountZero =
      runSteps [1] (schedule (execOrder cfgCountZero) cfgCountZero.listCountSkip
        cfgCountZero.listCount) := by
    unfold listRunner
    rw [if_neg h1, h2]
    exact if_neg h3
  have hsched : schedule (execOrder cfgCountZero) cfgCountZero.listCountSkip
      cfgCountZero.listCount = [(0, 0)] := by
    unfold schedule
    rw [flatMap_range_head]
    · with_unfolding_all decide
    · with_unfolding_all decide
    · intro i hi
      unfold iterSteps
      rw [if_neg (Nat.pos_iff_ne_zero.mp hi)]
      have hdrop : pyDropFrom (execOrder cfgCountZero) cfgCountZero.listCountSkip = [] := by
        with_unfolding_all decide
      rw [hdrop]
      rfl
  rw [hrun, hsched]
  with_unfolding_all decide

/-- Claim C3 (amended): with `listCount = 0` (the spec's "run forever"),
a valid run executes exactly the source's `999999` iteration stand-in:
when every iteration contributes at least one step, the iteration numbers
appearing in the trace are exactly `0 .. 999998`, and the run then
terminates on its own. -/
theorem c3_count_zero_iterations (c : ListConfig) (dwells : List ℚ)
    (h1 : points c ≠ [])
    (h2 : resolveDwells (points c) c.listDwel = some dwells)
    (h3 : execOrder c ≠ [])
    (h4 : ∀ idx ∈ execOrder c, (stepDwell dwells idx).isSome)
    (h0 : c.listCount = 0)
    (h5 : pyDropFrom (execOrder c) c.listCountSkip ≠ []) (i : ℕ) :
    (i ∈ (listRunner c).trace.map (fun e => e.1) ↔ i < 999999) ∧
    (listRunner c).outcome = .completed := by
  have hrun : listRunner c =
      runSteps dwells (schedule (execOrder c) c.listCountSkip c.listCount) := by
    unfold listRunner
    rw [if_neg h1, h2]
    exact if_neg h3
  have hvalid : ∀ p ∈ schedule (execOrder c) c.listCountSkip c.listCount,
      (stepDwell dwells p.2).isSome := by
    intro p hp
    simp only [schedule, List.mem_flatMap, List.mem_range, List.mem_map] at hp
    obtain ⟨j, _, idx, hidx, rfl⟩ := hp
    exact h4 idx (iterSteps_subset (execOrder c) c.listCountSkip j hidx)
  have htot : totalIters c.listCount = 999999 := by
    rw [h0]; rfl
  constructor
  · rw [hrun, runSteps_of_valid dwells _ hvalid]
    simp only [schedule, htot, List.map_map, List.mem_map, List.mem_flatMap,
      List.mem_range, Function.comp_def]
    constructor
    · rintro ⟨a, ⟨j, hj, idx, hidx, rfl⟩, rfl⟩
      exact hj
    · intro hi
      have hne : iterSteps (execOrder c) c.listCountSkip i ≠ [] := by
        unfold iterSteps
        split
        · exact h3
        · exact h5
      obtain ⟨x, hx⟩ := List.exists_mem_of_ne_nil _ hne
      exact ⟨(i, x), ⟨i, hi, x, hx, rfl⟩, rfl⟩
  · rw [hrun, runSteps_of_valid dwells _ hvalid]

/-- A one-point run with `listCount = 0` and no skip, so every iteration
contributes a step. -/
def cfgCountZeroFull : ListConfig := ⟨"VOLT", [1], [], [1], 0, 0, "UP", "DSEQ", []⟩

/-- Witness for `c3_count_zero_iterations`: iteration 999998 is reached
and iteration 999999 is not. -/
theorem c3_count_zero_iterations_witness :
    ((999998 ∈ (listRunner cfgCountZeroFull).trace.map (fun e => e.1) ↔ 999998 < 999999) ∧
      (listRunner cfgCountZeroFull).outcome = .completed) ∧
    ((999999 ∈ (listRunner cfgCountZeroFull).trace.map (fun e => e.1) ↔ 999999 < 999999) ∧
      (listRunner cfgCountZeroFull).outcome = .completed) :=
  ⟨c3_count_zero_iterations cfgCountZeroFull [1]
      (by with_unfolding_all decide) (by with_unfolding_all decide)
      (by with_unfolding_all decide) (by with_unfolding_all decide)
      rfl (by with_unfolding_all decide) 999998,
   c3_count_zero_iterations cfgCountZeroFull [1]
      (by with_unfolding_all decide) (by with_unfolding_all decide)
      (by with_unfolding_all decide) (by with_unfolding_all decide)
      rfl (by with_unfolding_all decide) 999999⟩

end Kepco
